import Mathlib

/-!
Verification development for the `smdash` system-monitoring dashboard
(`src/main.py`): a shallow embedding of its sampling and rolling-history
engine, followed by theorems about the embedded definitions.

Percentages are modelled as integers (`Int`); timestamps as strings.
A Python `collections.deque(maxlen=20)` is modelled as a list that keeps
only its last 20 elements after each append.
-/

/-- The last `n` elements of a list (all of it when it is shorter). -/
def takeRight (n : Nat) (l : List α) : List α :=
  l.drop (l.length - n)

/-- The `append` of a `deque(maxlen=cap)`: append at the tail, keeping only the
last `cap` elements (the oldest element is evicted when at capacity). -/
def dequeAppend (cap : Nat) (l : List α) (x : α) : List α :=
  takeRight cap (l ++ [x])

/-- The `history` dict of `main.py` (lines 18-23): four parallel
`deque(maxlen=20)` sequences for RAM, CPU, disk and the time axis. -/
structure History where
  ram : List Int
  cpu : List Int
  disk : List Int
  time : List String
deriving DecidableEq, Repr

/-- The initial state of `history`: all four deques empty. -/
def emptyHistory : History :=
  { ram := [], cpu := [], disk := [], time := [] }

/-- The external `psutil` capability: each of the three reads either
returns a percentage or raises. -/
structure SystemStatsProvider where
  memory_percent : Except String Int
  cpu_percent : Except String Int
  disk_percent : Except String Int

/-- Function `get_system_stats` (main.py lines 26-46): performs the three reads in
order inside one `try`; on success returns a dict with exactly the three
usage keys, on any exception returns the empty dict `{}` (modelled as an
association list in insertion order). -/
def get_system_stats (p : SystemStatsProvider) : List (String × Int) :=
  match p.memory_percent with
  | .error _ => []
  | .ok ram =>
    match p.cpu_percent with
    | .error _ => []
    | .ok cpu =>
      match p.disk_percent with
      | .error _ => []
      | .ok disk =>
        [("RAM Usage (%)", ram), ("CPU Usage (%)", cpu), ("Disk Usage (%)", disk)]

/-- One `go.Scatter` trace as built by the callbacks. -/
structure Scatter where
  x : List String
  y : List Int
  mode : String
  name : String
deriving DecidableEq, Repr

/-- The `go.Layout` part of each figure. -/
structure Layout where
  title : String
  xaxis_title : String
  xaxis_tickformat : String
  yaxis_title : String
deriving DecidableEq, Repr

/-- A plotly figure dict: `data` traces plus a `layout`. -/
structure Figure where
  data : List Scatter
  layout : Layout
deriving DecidableEq, Repr

/-- The combined figure built in `update_combined_graph` (lines 90-116):
three traces over the shared time axis. -/
def combinedFigure (h : History) : Figure :=
  { data :=
      [ { x := h.time, y := h.ram, mode := "lines+markers", name := "RAM Usage (%)" },
        { x := h.time, y := h.cpu, mode := "lines+markers", name := "CPU Usage (%)" },
        { x := h.time, y := h.disk, mode := "lines+markers", name := "Disk Usage (%)" } ],
    layout :=
      { title := "RAM, CPU, and Disk Usage Over Time",
        xaxis_title := "Time", xaxis_tickformat := "%H:%M:%S",
        yaxis_title := "Percentage" } }

/-- The RAM figure built in `update_separate_graphs` (lines 168-180). -/
def ramFigure (h : History) : Figure :=
  { data := [ { x := h.time, y := h.ram, mode := "lines+markers", name := "RAM Usage (%)" } ],
    layout :=
      { title := "RAM Usage Over Time",
        xaxis_title := "Time", xaxis_tickformat := "%H:%M:%S",
        yaxis_title := "Percentage" } }

/-- The CPU figure built in `update_separate_graphs` (lines 183-195). -/
def cpuFigure (h : History) : Figure :=
  { data := [ { x := h.time, y := h.cpu, mode := "lines+markers", name := "CPU Usage (%)" } ],
    layout :=
      { title := "CPU Usage Over Time",
        xaxis_title := "Time", xaxis_tickformat := "%H:%M:%S",
        yaxis_title := "Percentage" } }

/-- The disk figure built in `update_separate_graphs` (lines 198-210). -/
def diskFigure (h : History) : Figure :=
  { data := [ { x := h.time, y := h.disk, mode := "lines+markers", name := "Disk Usage (%)" } ],
    layout :=
      { title := "Disk Usage Over Time",
        xaxis_title := "Time", xaxis_tickformat := "%H:%M:%S",
        yaxis_title := "Percentage" } }

/-- Callback `update_combined_graph` (lines 71-118), with the global `history` made
an explicit argument and `datetime.now().strftime` an explicit `now`
parameter. Returns the updated history and the rendered payload; the empty
dict returned on failure is modelled as `none`. The final match arm is
unreachable: a non-empty `get_system_stats` result always carries the
three keys. -/
def update_combined_graph (p : SystemStatsProvider) (now : String)
    (h : History) : History × Option Figure :=
  let data := get_system_stats p
  if data.isEmpty then (h, none)
  else
    match data.lookup "RAM Usage (%)", data.lookup "CPU Usage (%)",
        data.lookup "Disk Usage (%)" with
    | some ram, some cpu, some disk =>
      let h2 : History :=
        { ram := dequeAppend 20 h.ram ram,
          cpu := dequeAppend 20 h.cpu cpu,
          disk := dequeAppend 20 h.disk disk,
          time := dequeAppend 20 h.time now }
      (h2, some (combinedFigure h2))
    | _, _, _ => (h, none)

/-- Callback `update_separate_graphs` (lines 149-212), under the same conventions as
`update_combined_graph`: the triple of empty dicts returned on failure is
modelled as `none`, a successful render as the triple of figures. -/
def update_separate_graphs (p : SystemStatsProvider) (now : String)
    (h : History) : History × Option (Figure × Figure × Figure) :=
  let data := get_system_stats p
  if data.isEmpty then (h, none)
  else
    match data.lookup "RAM Usage (%)", data.lookup "CPU Usage (%)",
        data.lookup "Disk Usage (%)" with
    | some ram, some cpu, some disk =>
      let h2 : History :=
        { ram := dequeAppend 20 h.ram ram,
          cpu := dequeAppend 20 h.cpu cpu,
          disk := dequeAppend 20 h.disk disk,
          time := dequeAppend 20 h.time now }
      (h2, some (ramFigure h2, cpuFigure h2, diskFigure h2))
    | _, _, _ => (h, none)

/-- Line 49: `mode = sys.argv[1] if len(sys.argv) > 1 else 'multiple'`
(main.py line 49). -/
def modeOf (argv : List String) : String :=
  if argv.length > 1 then argv.getD 1 "" else "multiple"

/-- The branch taken at line 51: `if mode == 'one'` selects the combined
single-chart layout, anything else the separate-charts layout. -/
def isCombinedMode (argv : List String) : Bool :=
  modeOf argv == "one"

/-- One successfully recorded sample: the three percentages plus the
timestamp taken on the same tick. -/
structure Sample where
  ram : Int
  cpu : Int
  disk : Int
  time : String
deriving DecidableEq, Repr

/-- The store-level record operation: the four `history[...].append(...)`
calls of a successful tick (lines 84-87 and 162-165). -/
def recordSample (h : History) (s : Sample) : History :=
  { ram := dequeAppend 20 h.ram s.ram,
    cpu := dequeAppend 20 h.cpu s.cpu,
    disk := dequeAppend 20 h.disk s.disk,
    time := dequeAppend 20 h.time s.time }

/-- The outcome of the three provider reads: `some` of the three values
when all succeed, `none` when any raises. -/
def sampleOf (p : SystemStatsProvider) : Option (Int × Int × Int) :=
  match p.memory_percent, p.cpu_percent, p.disk_percent with
  | .ok r, .ok c, .ok d => some (r, c, d)
  | _, _, _ => none

/-- One tick of a run: a provider behaviour plus the timestamp string
taken on that tick. -/
abbrev Tick := SystemStatsProvider × String

/-- A run of the combined-mode dashboard: fold the ticks through
`update_combined_graph`, starting from the empty history. -/
def runCombined (ticks : List Tick) : History :=
  ticks.foldl (fun h t => (update_combined_graph t.1 t.2 h).1) emptyHistory

/-- A run of the separate-mode dashboard. -/
def runSeparate (ticks : List Tick) : History :=
  ticks.foldl (fun h t => (update_separate_graphs t.1 t.2 h).1) emptyHistory

/-- The successfully recorded samples of a run, in chronological order. -/
def successes (ticks : List Tick) : List Sample :=
  ticks.filterMap fun t =>
    (sampleOf t.1).map fun v => { ram := v.1, cpu := v.2.1, disk := v.2.2, time := t.2 }

/-- Folding the record operation over a list of samples. -/
def historyOf (ss : List Sample) : History :=
  ss.foldl recordSample emptyHistory

/-- The length/alignment invariant of the store: all four sequences have
the same length, at most 20. -/
def goodHistory (h : History) : Prop :=
  h.cpu.length = h.ram.length ∧ h.disk.length = h.ram.length ∧
    h.time.length = h.ram.length ∧ h.ram.length ≤ 20

/-! ### Helper lemmas -/

theorem takeRight_eq_reverse (n : Nat) (l : List α) :
    takeRight n l = (l.reverse.take n).reverse :=
  List.rtake_eq_reverse_take_reverse l n

theorem takeRight_length (n : Nat) (l : List α) :
    (takeRight n l).length = min n l.length := by
  simp only [takeRight, List.length_drop]
  omega

theorem takeRight_eq_self (n : Nat) (l : List α) (h : l.length ≤ n) :
    takeRight n l = l := by
  simp [takeRight, Nat.sub_eq_zero_of_le h]

theorem takeRight_append (n : Nat) (a s : List α) :
    takeRight n (takeRight n a ++ s) = takeRight n (a ++ s) := by
  rw [takeRight_eq_reverse n a, takeRight_eq_reverse, takeRight_eq_reverse,
    List.reverse_append, List.reverse_reverse, List.reverse_append,
    List.take_append_eq_append_take, List.take_append_eq_append_take,
    List.take_take, List.length_reverse]
  congr 3
  omega

theorem length_dequeAppend (cap : Nat) (l : List α) (x : α) :
    (dequeAppend cap l x).length = min cap (l.length + 1) := by
  simp [dequeAppend, takeRight_length]

theorem foldl_dequeAppend (xs : List α) (acc : List α) (h : acc.length ≤ 20) :
    xs.foldl (dequeAppend 20) acc = takeRight 20 (acc ++ xs) := by
  induction xs generalizing acc with
  | nil => simp [takeRight_eq_self 20 acc h]
  | cons x xs ih =>
    have hlen : (dequeAppend 20 acc x).length ≤ 20 := by
      simp [length_dequeAppend]
    rw [List.foldl_cons, ih _ hlen]
    show takeRight 20 (takeRight 20 (acc ++ [x]) ++ xs) = _
    rw [takeRight_append, List.append_assoc]
    rfl

/-- Rewriting `get_system_stats` in terms of the three-read outcome. -/
theorem get_system_stats_eq (p : SystemStatsProvider) :
    get_system_stats p =
      match sampleOf p with
      | some v =>
          [("RAM Usage (%)", v.1), ("CPU Usage (%)", v.2.1), ("Disk Usage (%)", v.2.2)]
      | none => [] := by
  rcases p with ⟨m, c, d⟩
  cases m <;> cases c <;> cases d <;> rfl

/-- The store mutation performed by the combined-mode callback. -/
theorem update_combined_graph_eq (p : SystemStatsProvider) (now : String)
    (h : History) :
    update_combined_graph p now h =
      match sampleOf p with
      | none => (h, none)
      | some v =>
          (recordSample h ⟨v.1, v.2.1, v.2.2, now⟩,
            some (combinedFigure (recordSample h ⟨v.1, v.2.1, v.2.2, now⟩))) := by
  rcases p with ⟨m, c, d⟩
  cases m <;> cases c <;> cases d <;> rfl

/-- The store mutation performed by the separate-mode callback. -/
theorem update_separate_graphs_eq (p : SystemStatsProvider) (now : String)
    (h : History) :
    update_separate_graphs p now h =
      match sampleOf p with
      | none => (h, none)
      | some v =>
          (recordSample h ⟨v.1, v.2.1, v.2.2, now⟩,
            some (ramFigure (recordSample h ⟨v.1, v.2.1, v.2.2, now⟩),
              cpuFigure (recordSample h ⟨v.1, v.2.1, v.2.2, now⟩),
              diskFigure (recordSample h ⟨v.1, v.2.1, v.2.2, now⟩))) := by
  rcases p with ⟨m, c, d⟩
  cases m <;> cases c <;> cases d <;> rfl

/-- A combined-mode run mutates the store exactly by folding the record
operation over the successfully recorded samples. -/
theorem foldl_update_combined (ticks : List Tick) (h : History) :
    ticks.foldl (fun h t => (update_combined_graph t.1 t.2 h).1) h =
      (successes ticks).foldl recordSample h := by
  induction ticks generalizing h with
  | nil => rfl
  | cons t ts ih =>
    rw [List.foldl_cons]
    have hstep := update_combined_graph_eq t.1 t.2 h
    cases hs : sampleOf t.1 with
    | none =>
      rw [hs] at hstep
      simp only [hstep, successes, List.filterMap_cons, hs, Option.map_none']
      exact ih h
    | some v =>
      rw [hs] at hstep
      simp only [hstep, successes, List.filterMap_cons, hs, Option.map_some',
        List.foldl_cons]
      exact ih _

/-- A separate-mode run mutates the store in exactly the same way. -/
theorem foldl_update_separate (ticks : List Tick) (h : History) :
    ticks.foldl (fun h t => (update_separate_graphs t.1 t.2 h).1) h =
      (successes ticks).foldl recordSample h := by
  induction ticks generalizing h with
  | nil => rfl
  | cons t ts ih =>
    rw [List.foldl_cons]
    have hstep := update_separate_graphs_eq t.1 t.2 h
    cases hs : sampleOf t.1 with
    | none =>
      rw [hs] at hstep
      simp only [hstep, successes, List.filterMap_cons, hs, Option.map_none']
      exact ih h
    | some v =>
      rw [hs] at hstep
      simp only [hstep, successes, List.filterMap_cons, hs, Option.map_some',
        List.foldl_cons]
      exact ih _

theorem foldl_recordSample_ram (ss : List Sample) (h : History) :
    (ss.foldl recordSample h).ram =
      (ss.map Sample.ram).foldl (dequeAppend 20) h.ram := by
  induction ss generalizing h with
  | nil => rfl
  | cons s ss ih => simp only [List.foldl_cons, List.map_cons, ih, recordSample]

theorem foldl_recordSample_cpu (ss : List Sample) (h : History) :
    (ss.foldl recordSample h).cpu =
      (ss.map Sample.cpu).foldl (dequeAppend 20) h.cpu := by
  induction ss generalizing h with
  | nil => rfl
  | cons s ss ih => simp only [List.foldl_cons, List.map_cons, ih, recordSample]

theorem foldl_recordSample_disk (ss : List Sample) (h : History) :
    (ss.foldl recordSample h).disk =
      (ss.map Sample.disk).foldl (dequeAppend 20) h.disk := by
  induction ss generalizing h with
  | nil => rfl
  | cons s ss ih => simp only [List.foldl_cons, List.map_cons, ih, recordSample]

theorem foldl_recordSample_time (ss : List Sample) (h : History) :
    (ss.foldl recordSample h).time =
      (ss.map Sample.time).foldl (dequeAppend 20) h.time := by
  induction ss generalizing h with
  | nil => rfl
  | cons s ss ih => simp only [List.foldl_cons, List.map_cons, ih, recordSample]

/-- The history after a combined-mode run, per component: the last 20 of
the successfully recorded values. -/
theorem runCombined_components (ticks : List Tick) :
    (runCombined ticks).ram = takeRight 20 ((successes ticks).map Sample.ram) ∧
    (runCombined ticks).cpu = takeRight 20 ((successes ticks).map Sample.cpu) ∧
    (runCombined ticks).disk = takeRight 20 ((successes ticks).map Sample.disk) ∧
    (runCombined ticks).time = takeRight 20 ((successes ticks).map Sample.time) := by
  have hrun : runCombined ticks = (successes ticks).foldl recordSample emptyHistory :=
    foldl_update_combined ticks emptyHistory
  refine ⟨?_, ?_, ?_, ?_⟩
  · rw [hrun, foldl_recordSample_ram,
      foldl_dequeAppend _ _ (by simp [emptyHistory])]
    rfl
  · rw [hrun, foldl_recordSample_cpu,
      foldl_dequeAppend _ _ (by simp [emptyHistory])]
    rfl
  · rw [hrun, foldl_recordSample_disk,
      foldl_dequeAppend _ _ (by simp [emptyHistory])]
    rfl
  · rw [hrun, foldl_recordSample_time,
      foldl_dequeAppend _ _ (by simp [emptyHistory])]
    rfl

theorem goodHistory_recordSample (h : History) (s : Sample)
    (hg : goodHistory h) : goodHistory (recordSample h s) := by
  obtain ⟨h1, h2, h3, h4⟩ := hg
  refine ⟨?_, ?_, ?_, ?_⟩ <;>
    simp only [recordSample, length_dequeAppend, h1, h2, h3] <;> omega

theorem modeOf_cons (a b : String) (l : List String) :
    modeOf (a :: b :: l) = b := by
  unfold modeOf
  rw [if_pos (by simp only [List.length_cons]; omega)]
  rfl

/-- A provider whose three reads all succeed with the given values. -/
def okProvider (r c d : Int) : SystemStatsProvider :=
  ⟨.ok r, .ok c, .ok d⟩

/-- A provider whose reads raise. -/
def failProvider : SystemStatsProvider :=
  ⟨.error "boom", .error "boom", .error "boom"⟩

/-! ### Claim theorems -/

/-- C1: for every run of more than 20 ticks in which more than 20 samples
are successfully recorded, each of the four history sequences has length
exactly 20 afterwards and equals the last 20 successfully-recorded samples
in chronological order (oldest first); the separate-mode run leaves the
same store. -/
theorem capacity_invariant_run (ticks : List Tick)
    (hticks : 20 < ticks.length) (hsucc : 20 < (successes ticks).length) :
    (runCombined ticks).ram.length = 20 ∧
    (runCombined ticks).cpu.length = 20 ∧
    (runCombined ticks).disk.length = 20 ∧
    (runCombined ticks).time.length = 20 ∧
    (runCombined ticks).ram =
      ((successes ticks).map Sample.ram).drop ((successes ticks).length - 20) ∧
    (runCombined ticks).cpu =
      ((successes ticks).map Sample.cpu).drop ((successes ticks).length - 20) ∧
    (runCombined ticks).disk =
      ((successes ticks).map Sample.disk).drop ((successes ticks).length - 20) ∧
    (runCombined ticks).time =
      ((successes ticks).map Sample.time).drop ((successes ticks).length - 20) ∧
    runSeparate ticks = runCombined ticks := by
  obtain ⟨hr, hc, hd, ht⟩ := runCombined_components ticks
  refine ⟨?_, ?_, ?_, ?_, ?_, ?_, ?_, ?_, ?_⟩
  · rw [hr, takeRight_length, List.length_map]; omega
  · rw [hc, takeRight_length, List.length_map]; omega
  · rw [hd, takeRight_length, List.length_map]; omega
  · rw [ht, takeRight_length, List.length_map]; omega
  · rw [hr]; simp [takeRight, List.length_map]
  · rw [hc]; simp [takeRight, List.length_map]
  · rw [hd]; simp [takeRight, List.length_map]
  · rw [ht]; simp [takeRight, List.length_map]
  · rw [runSeparate, runCombined, foldl_update_separate, foldl_update_combined]

/-- A run of 21 ticks, all successful, for the C1 witness. -/
def ticksW : List Tick :=
  (List.range 21).map fun i => (okProvider i i i, "t")

/-- Witness for C1 at a concrete 21-tick run. -/
theorem capacity_invariant_run_witness :
    20 < ticksW.length ∧ 20 < (successes ticksW).length ∧
    ((runCombined ticksW).ram.length = 20 ∧
      (runCombined ticksW).cpu.length = 20 ∧
      (runCombined ticksW).disk.length = 20 ∧
      (runCombined ticksW).time.length = 20 ∧
      (runCombined ticksW).ram =
        ((successes ticksW).map Sample.ram).drop ((successes ticksW).length - 20) ∧
      (runCombined ticksW).cpu =
        ((successes ticksW).map Sample.cpu).drop ((successes ticksW).length - 20) ∧
      (runCombined ticksW).disk =
        ((successes ticksW).map Sample.disk).drop ((successes ticksW).length - 20) ∧
      (runCombined ticksW).time =
        ((successes ticksW).map Sample.time).drop ((successes ticksW).length - 20) ∧
      runSeparate ticksW = runCombined ticksW) :=
  ⟨by decide, by decide, capacity_invariant_run ticksW (by decide) (by decide)⟩

/-- C2: from the empty store, recording `{ram:10, cpu:5, disk:50,
time:"00:00:00"}` yields the snapshot `{ram:[10], cpu:[5], disk:[50],
time:["00:00:00"]}`; recording 25 samples with ram values 1..25 leaves
the ram sequence equal to `[6, 7, ..., 25]` (length 20). -/
theorem record_scenario :
    runCombined [(okProvider 10 5 50, "00:00:00")] =
      { ram := [10], cpu := [5], disk := [50], time := ["00:00:00"] } ∧
    (runCombined ((List.range 25).map fun i =>
        (okProvider ((i : Int) + 1) 0 0, "t"))).ram =
      (List.range 20).map (fun i => (i : Int) + 6) ∧
    ((runCombined ((List.range 25).map fun i =>
        (okProvider ((i : Int) + 1) 0 0, "t"))).ram).length = 20 := by
  refine ⟨by decide, by decide, by decide⟩

/-- C3: the four sequences always have equal length at most 20: the
invariant holds initially and is preserved by every tick in either mode; a
failed tick appends nothing, and a successful tick appends exactly one
element to each of the four sequences (with capacity-20 eviction). -/
theorem sequences_aligned (p : SystemStatsProvider) (now : String)
    (h : History) (hg : goodHistory h) :
    goodHistory emptyHistory ∧
    goodHistory ((update_combined_graph p now h).1) ∧
    goodHistory ((update_separate_graphs p now h).1) ∧
    (get_system_stats p = [] →
      (update_combined_graph p now h).1 = h ∧
      (update_separate_graphs p now h).1 = h) ∧
    (∀ r c d, sampleOf p = some (r, c, d) →
      (update_combined_graph p now h).1.ram = dequeAppend 20 h.ram r ∧
      (update_combined_graph p now h).1.cpu = dequeAppend 20 h.cpu c ∧
      (update_combined_graph p now h).1.disk = dequeAppend 20 h.disk d ∧
      (update_combined_graph p now h).1.time = dequeAppend 20 h.time now) := by
  have hemp : goodHistory emptyHistory := ⟨rfl, rfl, rfl, by simp [emptyHistory]⟩
  have hcomb := update_combined_graph_eq p now h
  have hsep := update_separate_graphs_eq p now h
  cases hs : sampleOf p with
  | none =>
    rw [hs] at hcomb hsep
    refine ⟨hemp, by rw [hcomb]; exact hg, by rw [hsep]; exact hg,
      fun _ => ⟨by rw [hcomb], by rw [hsep]⟩, fun r c d hrcd => ?_⟩
    exact absurd hrcd (by simp)
  | some v =>
    rw [hs] at hcomb hsep
    have hne : get_system_stats p ≠ [] := by
      rw [get_system_stats_eq, hs]
      simp
    refine ⟨hemp, by rw [hcomb]; exact goodHistory_recordSample h _ hg,
      by rw [hsep]; exact goodHistory_recordSample h _ hg,
      fun hfail => absurd hfail hne, fun r c d hrcd => ?_⟩
    obtain rfl : v = (r, c, d) := Option.some_injective _ hrcd
    rw [hcomb]
    exact ⟨rfl, rfl, rfl, rfl⟩

/-- Witness for C3 at a concrete successful tick from the empty store. -/
theorem sequences_aligned_witness :
    goodHistory emptyHistory ∧
    (goodHistory emptyHistory ∧
      goodHistory ((update_combined_graph (okProvider 1 2 3) "00:00:01" emptyHistory).1) ∧
      goodHistory ((update_separate_graphs (okProvider 1 2 3) "00:00:01" emptyHistory).1) ∧
      (get_system_stats (okProvider 1 2 3) = [] →
        (update_combined_graph (okProvider 1 2 3) "00:00:01" emptyHistory).1 = emptyHistory ∧
        (update_separate_graphs (okProvider 1 2 3) "00:00:01" emptyHistory).1 = emptyHistory) ∧
      (∀ r c d, sampleOf (okProvider 1 2 3) = some (r, c, d) →
        (update_combined_graph (okProvider 1 2 3) "00:00:01" emptyHistory).1.ram =
          dequeAppend 20 emptyHistory.ram r ∧
        (update_combined_graph (okProvider 1 2 3) "00:00:01" emptyHistory).1.cpu =
          dequeAppend 20 emptyHistory.cpu c ∧
        (update_combined_graph (okProvider 1 2 3) "00:00:01" emptyHistory).1.disk =
          dequeAppend 20 emptyHistory.disk d ∧
        (update_combined_graph (okProvider 1 2 3) "00:00:01" emptyHistory).1.time =
          dequeAppend 20 emptyHistory.time "00:00:01")) :=
  ⟨⟨rfl, rfl, rfl, by simp [emptyHistory]⟩,
    sequences_aligned (okProvider 1 2 3) "00:00:01" emptyHistory
      ⟨rfl, rfl, rfl, by simp [emptyHistory]⟩⟩

/-- C4: when `get_system_stats` returns the empty dict, the tick leaves
the stored history unchanged in both modes. -/
theorem failure_noop (p : SystemStatsProvider) (now : String) (h : History)
    (hf : get_system_stats p = []) :
    (update_combined_graph p now h).1 = h ∧
    (update_separate_graphs p now h).1 = h := by
  have hcomb := update_combined_graph_eq p now h
  have hsep := update_separate_graphs_eq p now h
  cases hs : sampleOf p with
  | none =>
    rw [hs] at hcomb hsep
    exact ⟨by rw [hcomb], by rw [hsep]⟩
  | some v =>
    rw [get_system_stats_eq, hs] at hf
    exact absurd hf (by simp)

/-- Witness for C4: a failing provider leaves a one-sample history intact. -/
theorem failure_noop_witness :
    get_system_stats failProvider = [] ∧
    ((update_combined_graph failProvider "00:00:05"
        { ram := [10], cpu := [5], disk := [50], time := ["00:00:00"] }).1 =
      { ram := [10], cpu := [5], disk := [50], time := ["00:00:00"] } ∧
     (update_separate_graphs failProvider "00:00:05"
        { ram := [10], cpu := [5], disk := [50], time := ["00:00:00"] }).1 =
      { ram := [10], cpu := [5], disk := [50], time := ["00:00:00"] }) :=
  ⟨rfl, failure_noop failProvider "00:00:05"
    { ram := [10], cpu := [5], disk := [50], time := ["00:00:00"] } rfl⟩

/-- A provider whose memory read returns 150, outside [0,100], without
raising. -/
def outOfRangeProvider : SystemStatsProvider :=
  okProvider 150 50 50

/-- C5 counterexample: a reading of 150 does not make sampling fail — the
tick stores 150 in the ram history even though 150 is outside [0,100]. -/
theorem out_of_range_stored :
    get_system_stats outOfRangeProvider ≠ [] ∧
    (update_combined_graph outOfRangeProvider "00:00:00" emptyHistory).1.ram
      = [150] ∧
    ¬ (150 : Int) ≤ 100 := by
  exact ⟨by decide, by decide, by decide⟩

/-- C5 amended: sampling fails as a whole exactly when one of the three
reads raises; a value returned without raising is stored as-is on the next
successful tick, whether or not it lies in [0,100]. -/
theorem sampling_error_handling (p : SystemStatsProvider) (now : String)
    (h : History) :
    (get_system_stats p = [] →
      (update_combined_graph p now h).1 = h ∧
      (update_separate_graphs p now h).1 = h) ∧
    (∀ r c d, p.memory_percent = .ok r → p.cpu_percent = .ok c →
      p.disk_percent = .ok d →
      (update_combined_graph p now h).1 = recordSample h ⟨r, c, d, now⟩ ∧
      (update_separate_graphs p now h).1 = recordSample h ⟨r, c, d, now⟩) ∧
    (∀ e, (p.memory_percent = .error e ∨ p.cpu_percent = .error e ∨
        p.disk_percent = .error e) →
      get_system_stats p = []) := by
  have hcomb := update_combined_graph_eq p now h
  have hsep := update_separate_graphs_eq p now h
  refine ⟨?_, ?_, ?_⟩
  · intro hf
    cases hs : sampleOf p with
    | none =>
      rw [hs] at hcomb hsep
      exact ⟨by rw [hcomb], by rw [hsep]⟩
    | some v =>
      rw [get_system_stats_eq, hs] at hf
      exact absurd hf (by simp)
  · intro r c d hr hc hd
    have hs : sampleOf p = some (r, c, d) := by
      unfold sampleOf
      rw [hr, hc, hd]
    rw [hs] at hcomb hsep
    exact ⟨by rw [hcomb], by rw [hsep]⟩
  · intro e he
    unfold get_system_stats
    rcases he with he | he | he
    · rw [he]
    · cases hm : p.memory_percent with
      | error m => rfl
      | ok r => rw [he]
    · cases hm : p.memory_percent with
      | error m => rfl
      | ok r =>
        cases hc : p.cpu_percent with
        | error m => rfl
        | ok c => rw [he]

/-- Witness for the amended C5: the out-of-range provider stores its
values verbatim, and an erroring read makes the whole fetch return the
empty dict. -/
theorem sampling_error_handling_witness :
    ((update_combined_graph outOfRangeProvider "00:00:00" emptyHistory).1 =
        recordSample emptyHistory ⟨150, 50, 50, "00:00:00"⟩ ∧
      (update_separate_graphs outOfRangeProvider "00:00:00" emptyHistory).1 =
        recordSample emptyHistory ⟨150, 50, 50, "00:00:00"⟩) ∧
    get_system_stats failProvider = [] :=
  ⟨(sampling_error_handling outOfRangeProvider "00:00:00" emptyHistory).2.1
      150 50 50 rfl rfl rfl,
    (sampling_error_handling failProvider "00:00:00" emptyHistory).2.2
      "boom" (Or.inl rfl)⟩

/-- The history after one successfully recorded sample, for the C6
counterexample. -/
def oneSampleHistory : History :=
  runCombined [(okProvider 10 5 50, "00:00:00")]

/-- C6 counterexample: with prior history present, a failed tick still
returns the empty payload in both modes, not the previous snapshot. -/
theorem failure_payload_counterexample :
    oneSampleHistory.time ≠ [] ∧
    (update_combined_graph failProvider "00:00:05" oneSampleHistory).2 = none ∧
    (update_separate_graphs failProvider "00:00:05" oneSampleHistory).2 = none := by
  exact ⟨by decide, rfl, rfl⟩

/-- C6 amended: on a tick whose sampling fails, both callbacks return the
empty payload regardless of whether prior history exists, and leave the
stored history unchanged. -/
theorem failure_empty_payload (p : SystemStatsProvider) (now : String)
    (h : History) (hf : get_system_stats p = []) :
    update_combined_graph p now h = (h, none) ∧
    update_separate_graphs p now h = (h, none) := by
  have hcomb := update_combined_graph_eq p now h
  have hsep := update_separate_graphs_eq p now h
  cases hs : sampleOf p with
  | none =>
    rw [hs] at hcomb hsep
    exact ⟨hcomb, hsep⟩
  | some v =>
    rw [get_system_stats_eq, hs] at hf
    exact absurd hf (by simp)

/-- Witness for the amended C6 at a failing provider over a non-empty
history. -/
theorem failure_empty_payload_witness :
    get_system_stats failProvider = [] ∧
    (update_combined_graph failProvider "00:00:05" oneSampleHistory =
        (oneSampleHistory, none) ∧
      update_separate_graphs failProvider "00:00:05" oneSampleHistory =
        (oneSampleHistory, none)) :=
  ⟨rfl, failure_empty_payload failProvider "00:00:05" oneSampleHistory rfl⟩

/-- C7: over any one history, the combined figure is a single payload of
exactly three series (RAM, CPU, Disk) whose x-axes all equal the stored
time sequence, and the separate figures are three payloads of one series
each, every one sharing that same x-axis. -/
theorem mode_rendering (h : History) :
    (combinedFigure h).data.length = 3 ∧
    (combinedFigure h).data.map Scatter.x = [h.time, h.time, h.time] ∧
    (combinedFigure h).data.map Scatter.name =
      ["RAM Usage (%)", "CPU Usage (%)", "Disk Usage (%)"] ∧
    (ramFigure h).data.length = 1 ∧
    (cpuFigure h).data.length = 1 ∧
    (diskFigure h).data.length = 1 ∧
    (ramFigure h).data.map Scatter.x = [h.time] ∧
    (cpuFigure h).data.map Scatter.x = [h.time] ∧
    (diskFigure h).data.map Scatter.x = [h.time] ∧
    (ramFigure h).data.map Scatter.y = [h.ram] ∧
    (cpuFigure h).data.map Scatter.y = [h.cpu] ∧
    (diskFigure h).data.map Scatter.y = [h.disk] ∧
    (combinedFigure h).data.map Scatter.y = [h.ram, h.cpu, h.disk] :=
  ⟨rfl, rfl, rfl, rfl, rfl, rfl, rfl, rfl, rfl, rfl, rfl, rfl, rfl⟩

/-- C8: the startup selector takes `argv[1]` when present; `"one"` selects
the combined layout, any other value selects the separate layout, and an
absent argument defaults to `"multiple"` (separate layout). -/
theorem mode_selector (progName m : String) (rest : List String) :
    isCombinedMode (progName :: "one" :: rest) = true ∧
    (m ≠ "one" → isCombinedMode (progName :: m :: rest) = false) ∧
    isCombinedMode [progName] = false ∧
    modeOf [progName] = "multiple" ∧
    modeOf [] = "multiple" := by
  refine ⟨?_, ?_, rfl, rfl, rfl⟩
  · rw [isCombinedMode, modeOf_cons]
    rfl
  · intro hm
    rw [isCombinedMode, modeOf_cons]
    exact beq_eq_false_iff_ne.mpr hm

/-- Witness for C8 at a concrete argument vector. -/
theorem mode_selector_witness :
    isCombinedMode ["main.py", "one"] = true ∧
    (("two" : String) ≠ "one" ∧ isCombinedMode ["main.py", "two"] = false) ∧
    isCombinedMode ["main.py"] = false ∧
    modeOf ["main.py"] = "multiple" ∧
    modeOf [] = "multiple" := by
  obtain ⟨h1, h2, h3, h4, h5⟩ := mode_selector "main.py" "two" []
  exact ⟨h1, ⟨by decide, h2 (by decide)⟩, h3, h4, h5⟩

/-- C9: mode choice never affects the stored state — for the same provider
outcome and timestamp, one tick of either callback leaves equal stores,
and whole runs of the two modes leave equal stores. -/
theorem mode_store_equivalence :
    (∀ (p : SystemStatsProvider) (now : String) (h : History),
      (update_combined_graph p now h).1 = (update_separate_graphs p now h).1) ∧
    (∀ ticks : List Tick, runCombined ticks = runSeparate ticks) := by
  constructor
  · intro p now h
    rw [update_combined_graph_eq, update_separate_graphs_eq]
    cases sampleOf p <;> rfl
  · intro ticks
    rw [runSeparate, runCombined, foldl_update_separate, foldl_update_combined]

/-- C10: `get_system_stats` is a total function of the provider behaviour;
for every provider it returns either the empty dict or a dict whose keys
are exactly the three usage keys in order. -/
theorem stats_total_keys (p : SystemStatsProvider) :
    get_system_stats p = [] ∨
    (get_system_stats p).map Prod.fst =
      ["RAM Usage (%)", "CPU Usage (%)", "Disk Usage (%)"] := by
  rw [get_system_stats_eq]
  cases sampleOf p with
  | none => exact Or.inl rfl
  | some v => exact Or.inr rfl
